import Mathlib

/-!
# Verification of the prompt-sentinel concurrent test runner

A shallow embedding, in Lean 4, of the core of the `prompt-sentinel`
regression-testing engine (Rust): the retry/backoff policy
(`src/runner.rs`, `complete_with_retry`), the assertion evaluator and
snapshot store (`src/assertions.rs`, `check_assertion` / `check_snapshot` /
`diff_summary` / `truncate`), the assertion parser
(`src/config.rs`, `AssertionKind::from_raw`, `render_prompt`), the
scheduler/collector (`src/runner.rs`, `run_all_tests`), the cost table
(`src/providers.rs`, `calculate_cost`) and the report aggregator
(`src/report.rs`, `generate_report`).

Modelling conventions:
* Rust `&str` / `String` are Lean `String`; byte-level operations
  (Rust `str::len`, byte-range slicing `&s[..n]`) are modelled over
  `String.data` with the UTF-8 width of each `Char` (`charSize`), exactly
  as Rust encodes them.  A Rust byte-slice at a non-character boundary,
  and any other panicking evaluation, is modelled as `Option.none`.
* Rust `str::trim` / `char::to_lowercase` are modelled over the ASCII
  range (the only range the repository's data exercises).
* The filesystem holding the snapshot directory is an association list
  from filename to file content (`SnapshotStore`); I/O itself is assumed
  fault-free, so the `Err` arms of `create_dir_all` / `write` /
  `read_to_string` in `check_snapshot` are not reachable in the model.
* The external completion provider, the `regex` crate and `serde_json`
  are oracles: the provider is a function from (prompt, model,
  temperature, attempt index) to that attempt's outcome, and the regex /
  JSON predicates are abstract boolean functions.
* Machine integers (`u32`, `u64`) are `Nat` with an explicit `% 2 ^ w`
  where the source may overflow (release-mode wrapping sums in
  `generate_report`).
* Floating point (`f64` costs, temperatures) is modelled as `ℚ`: the
  claims under verification concern which values are summed or
  propagated, not rounding behaviour.
-/

namespace PromptSentinel

/-- Decidable equality for `Except`, used to evaluate the embedding on
concrete inputs. -/
instance instDecEqExcept {ε α : Type} [DecidableEq ε] [DecidableEq α] :
    DecidableEq (Except ε α) := fun x y =>
  match x, y with
  | .ok a, .ok b =>
    if h : a = b then .isTrue (by rw [h]) else .isFalse (by simp [h])
  | .error a, .error b =>
    if h : a = b then .isTrue (by rw [h]) else .isFalse (by simp [h])
  | .ok _, .error _ => .isFalse (by simp)
  | .error _, .ok _ => .isFalse (by simp)

/-! ## String primitives (Rust `str` operations, byte-accurate) -/

/-- UTF-8 width in bytes of one scalar value, as Rust encodes it. -/
def charSize (c : Char) : Nat :=
  if c.toNat < 0x80 then 1
  else if c.toNat < 0x800 then 2
  else if c.toNat < 0x10000 then 3
  else 4

/-- Total UTF-8 byte count of a character list. -/
def utf8Len (cs : List Char) : Nat := (cs.map charSize).sum

/-- Rust `str::len`: the length of a string in BYTES, not characters. -/
def strBytes (s : String) : Nat := utf8Len s.data

/-- `listPrefix p s` : `p` is a prefix of `s` (character-wise). -/
def listPrefix : List Char → List Char → Bool
  | [], _ => true
  | _ :: _, [] => false
  | p :: ps, c :: cs => p == c && listPrefix ps cs

/-- Does `pat` occur as a contiguous run somewhere in the list? -/
def substrAux (pat : List Char) : List Char → Bool
  | [] => listPrefix pat []
  | c :: cs => listPrefix pat (c :: cs) || substrAux pat cs

/-- Rust `str::contains` with a string pattern: substring containment. -/
def hasSubstr (hay pat : String) : Bool := substrAux pat.data hay.data

/-- Whitespace trim over a character list (both ends). -/
def trimList (cs : List Char) : List Char :=
  ((cs.dropWhile Char.isWhitespace).reverse.dropWhile Char.isWhitespace).reverse

/-- Rust `str::trim` (modelled over ASCII whitespace). -/
def trimStr (s : String) : String := String.mk (trimList s.data)

/-- ASCII lowercase of one character (models `char::to_lowercase` on the
data the repository handles). -/
def lowerChar (c : Char) : Char := c.toLower

/-- Rust `str::to_lowercase` (ASCII range). -/
def toLowercase (s : String) : String := String.mk (s.data.map lowerChar)

/-- One scan step of `str::replace`: `fuel` starts at the character count
of the scanned list and bounds the recursion; it never runs out before
the list does, because every step consumes at least one character. -/
def replaceAux (pat rep : List Char) : Nat → List Char → List Char
  | 0, s => s
  | fuel + 1, s =>
    match s with
    | [] => []
    | c :: rest =>
      if pat.isEmpty = false && listPrefix pat s then
        rep ++ replaceAux pat rep fuel (s.drop pat.length)
      else c :: replaceAux pat rep fuel rest

/-- Rust `str::replace`: every non-overlapping occurrence of `pat`,
left to right, becomes `rep`. -/
def replaceStr (s pat rep : String) : String :=
  String.mk (replaceAux pat.data rep.data s.data.length s.data)

/-! ## Data model (`src/providers.rs`, `src/runner.rs`, `src/config.rs`) -/

/-- `providers.rs`: token usage returned by the LLM API. -/
structure TokenUsage where
  prompt_tokens : Nat
  completion_tokens : Nat
  total_tokens : Nat
deriving DecidableEq, Repr

/-- Rust `TokenUsage::default()`: all counts zero. -/
def TokenUsage.zero : TokenUsage := ⟨0, 0, 0⟩

/-- `providers.rs`: result of a completion call. -/
structure CompletionResult where
  text : String
  usage : TokenUsage
deriving DecidableEq, Repr

/-- `assertions.rs`: result of a single assertion check. -/
structure AssertionResult where
  passed : Bool
  label : String
  detail : String
deriving DecidableEq, Repr

/-- `runner.rs`: serialized form of an assertion outcome
(`From<AssertionResult> for AssertionDetail` is field-wise identity). -/
structure AssertionDetail where
  label : String
  passed : Bool
  detail : String
deriving DecidableEq, Repr

/-- The identity conversion `runner.rs` applies via `.into()`. -/
def AssertionDetail.ofResult (r : AssertionResult) : AssertionDetail :=
  ⟨r.label, r.passed, r.detail⟩

/-- `runner.rs`: the result of running a single test case. -/
structure CaseResult where
  test_id : String
  input_label : String
  passed : Bool
  latency_ms : Nat
  assertions : List AssertionDetail
  error : Option String
  retries : Nat
  tokens : TokenUsage
  cost_usd : ℚ
  model : String
  output : Option String
deriving DecidableEq, Repr

/-- `config.rs`: the subset of `serde_yaml::Value` the assertion parser
inspects (`as_str`, `as_u64`, `as_f64`). -/
inductive YamlValue where
  | str (s : String)
  | nat (n : Nat)
  | float (q : ℚ)
  | bool (b : Bool)
  | null
deriving DecidableEq, Repr

/-- `serde_yaml::Value::as_str`. -/
def YamlValue.as_str : YamlValue → Option String
  | .str s => some s
  | _ => none

/-- `serde_yaml::Value::as_u64`. -/
def YamlValue.as_u64 : YamlValue → Option Nat
  | .nat n => some n
  | _ => none

/-- `serde_yaml::Value::as_f64` (numbers are representable as `ℚ`). -/
def YamlValue.as_f64 : YamlValue → Option ℚ
  | .nat n => some (n : ℚ)
  | .float q => some q
  | _ => none

/-- Rust `f as u64` on an `f64`: truncate toward zero, saturating at the
`u64` range. -/
def floatToU64 (q : ℚ) : Nat :=
  if q < 0 then 0 else min (Int.toNat ⌊q⌋) (2 ^ 64 - 1)

/-- `config.rs`: a raw (untyped) assertion from the YAML file. -/
structure RawAssertion where
  kind : String
  value : YamlValue
deriving DecidableEq, Repr

/-- `config.rs`: a test case — input variables plus raw assertions.  The
`HashMap<String, String>` is modelled as an association list whose order
stands for the map's iteration order. -/
structure TestCase where
  input : List (String × String)
  assertions : List RawAssertion
deriving DecidableEq, Repr

/-- `config.rs`: a test definition. -/
structure TestDef where
  id : String
  prompt : String
  model : Option String
  cases : List TestCase
deriving DecidableEq, Repr

/-- `config.rs`: defaults applied to all tests unless overridden. -/
structure Defaults where
  model : String
  temperature : ℚ
deriving DecidableEq, Repr

/-- `config.rs`: top-level configuration. -/
structure Config where
  defaults : Defaults
  tests : List TestDef
deriving DecidableEq, Repr

/-- `config.rs` `AssertionKind`: parsed assertion with strong types. -/
inductive AssertionKind where
  | Contains (s : String)
  | NotContains (s : String)
  | LatencyMax (ms : Nat)
  | Snapshot
  | Regex (pattern : String)
  | JsonValid
  | MinLength (n : Nat)
  | MaxLength (n : Nat)
deriving DecidableEq, Repr

/-- The external crates `check_assertion` consults, as boolean oracles:
`regexOk pattern` — `regex::Regex::new(pattern).is_ok()`;
`regexMatch pattern text` — the compiled pattern matches `text`;
`jsonOk text` — `serde_json::from_str::<Value>(text).is_ok()`. -/
structure Oracles where
  regexOk : String → Bool
  regexMatch : String → String → Bool
  jsonOk : String → Bool

/-- `config.rs` `render_prompt`: substitute `{{key}}` placeholders. -/
def render_prompt (template : String) (vars : List (String × String)) : String :=
  vars.foldl
    (fun result kv => replaceStr result ("\x7b\x7b" ++ kv.1 ++ "\x7d\x7d") kv.2)
    template

/-- Numeric extraction used by `from_raw` for `latency_max`,
`min_length`, `max_length`: `value.as_u64().or_else(|| value.as_f64().map(|f| f as u64))`. -/
def yamlNum (v : YamlValue) : Option Nat :=
  match v.as_u64 with
  | some n => some n
  | none => v.as_f64.map floatToU64

/-- `config.rs` `AssertionKind::from_raw`, with the regex compiler as an
oracle parameter. -/
def AssertionKind.from_raw (regexOk : String → Bool) (kind : String) (value : YamlValue) :
    Except String AssertionKind :=
  match kind with
  | "contains" =>
    match value.as_str with
    | some s => .ok (.Contains s)
    | none => .error "contains value must be a string"
  | "not-contains" =>
    match value.as_str with
    | some s => .ok (.NotContains s)
    | none => .error "not-contains value must be a string"
  | "latency_max" =>
    match yamlNum value with
    | some ms => .ok (.LatencyMax ms)
    | none => .error "latency_max value must be a number"
  | "snapshot" => .ok .Snapshot
  | "regex" =>
    match value.as_str with
    | some pattern =>
      if regexOk pattern then .ok (.Regex pattern)
      else .error ("invalid regex: " ++ pattern)
    | none => .error "regex value must be a string pattern"
  | "json_valid" => .ok .JsonValid
  | "min_length" =>
    match yamlNum value with
    | some n => .ok (.MinLength n)
    | none => .error "min_length value must be a number"
  | "max_length" =>
    match yamlNum value with
    | some n => .ok (.MaxLength n)
    | none => .error "max_length value must be a number"
  | other => .error ("unknown assertion type: " ++ other)

/-! ## Cost table (`src/providers.rs`) -/

/-- `providers.rs` `cost_per_million_tokens`: (input, output) USD rates. -/
def cost_per_million_tokens (model : String) : ℚ × ℚ :=
  match model with
  | "gpt-4o" => (2.50, 10.00)
  | "gpt-4o-mini" => (0.15, 0.60)
  | "gpt-4-turbo" => (10.00, 30.00)
  | "gpt-4-turbo-preview" => (10.00, 30.00)
  | "gpt-4" => (30.00, 60.00)
  | "gpt-3.5-turbo" => (0.50, 1.50)
  | "o1" => (15.00, 60.00)
  | "o1-mini" => (3.00, 12.00)
  | "o3-mini" => (1.10, 4.40)
  | "claude-3-5-sonnet-20241022" => (3.00, 15.00)
  | "claude-3-5-sonnet-latest" => (3.00, 15.00)
  | "claude-3-5-haiku-20241022" => (0.80, 4.00)
  | "claude-3-5-haiku-latest" => (0.80, 4.00)
  | "claude-3-opus-20240229" => (15.00, 75.00)
  | "claude-3-opus-latest" => (15.00, 75.00)
  | _ => (0, 0)

/-- `providers.rs` `calculate_cost`. -/
def calculate_cost (model : String) (usage : TokenUsage) : ℚ :=
  let rates := cost_per_million_tokens model
  ((usage.prompt_tokens : ℚ) / 1000000) * rates.1
    + ((usage.completion_tokens : ℚ) / 1000000) * rates.2

/-! ## Snapshot store (`src/assertions.rs`)

The snapshot directory is an association list from filename to file
content; `fsRead` is `fs::read_to_string` (`none` = the file does not
exist), `fsWrite` is `fs::write`.  A value of `none` returned by
`truncate`, `diff_summary`, `check_snapshot` or `check_assertion` models
a Rust panic (the byte-range slice `&s[..max]` at a non-character
boundary aborts the surrounding task). -/

/-- The snapshot directory's contents: filename ↦ file text. -/
abbrev SnapshotStore : Type := List (String × String)

/-- `fs::read_to_string`, fault-free: `none` iff the file is absent. -/
def fsRead (fname : String) (store : SnapshotStore) : Option String :=
  List.lookup fname store

/-- `fs::write`, fault-free: the file now holds `content`. -/
def fsWrite (fname : String) (content : String) (store : SnapshotStore) : SnapshotStore :=
  (fname, content) :: store

/-- `&s[..max]` on a Rust `str`: the prefix of the character list worth
exactly `max` BYTES, or `none` (panic) when `max` is not on a character
boundary or exceeds the string. -/
def bytePrefix : List Char → Nat → Option (List Char)
  | _, 0 => some []
  | [], _ + 1 => none
  | c :: cs, b + 1 =>
    if charSize c ≤ b + 1 then
      match bytePrefix cs (b + 1 - charSize c) with
      | some pre => some (c :: pre)
      | none => none
    else none

/-- `assertions.rs` `truncate`: when `s.len() > max` (BYTE length), slice
the first `max` bytes and append an ellipsis; the slice panics (`none`)
off a character boundary. -/
def truncate (s : String) (max : Nat) : Option String :=
  if strBytes s > max then
    match bytePrefix s.data max with
    | some pre => some (String.mk pre ++ "…")
    | none => none
  else some s

/-- One split step for `str::lines`: pieces delimited by `\n` or `\r\n`
(`acc` holds the current line, reversed). -/
def splitLinesAux : List Char → List Char → List (List Char)
  | [], acc => [acc.reverse]
  | '\r' :: '\n' :: rest, acc => acc.reverse :: splitLinesAux rest []
  | '\n' :: rest, acc => acc.reverse :: splitLinesAux rest []
  | c :: rest, acc => splitLinesAux rest (c :: acc)

/-- Rust `str::lines`: split at `\n` / `\r\n`; a final line ending
produces no trailing empty line; the empty string has no lines. -/
def rustLines (s : String) : List String :=
  match s.data with
  | [] => []
  | cs =>
    let parts := splitLinesAux cs []
    (if cs.getLast? = some '\n' then parts.dropLast else parts).map String.mk

/-- The zip-and-enumerate scan of `diff_summary`: the first index where
the two line lists disagree, with both lines. -/
def firstDiff : List String → List String → Nat → Option (Nat × String × String)
  | e :: es, a :: bs, i =>
    if e = a then firstDiff es bs (i + 1) else some (i, e, a)
  | _, _, _ => none

/-- `assertions.rs` `diff_summary`; `none` models the panic `truncate`
can raise on the first differing line. -/
def diff_summary (expected actual : String) : Option String :=
  let exp_lines := rustLines expected
  let act_lines := rustLines actual
  match firstDiff exp_lines act_lines 0 with
  | some (i, e, a) =>
    match truncate e 40, truncate a 40 with
    | some te, some ta =>
      some ("First diff at line " ++ toString (i + 1) ++ ": expected '" ++ te
        ++ "', got '" ++ ta ++ "'")
    | _, _ => none
  | none =>
    if exp_lines.length ≠ act_lines.length then
      some ("Line count differs: snapshot has " ++ toString exp_lines.length
        ++ ", output has " ++ toString act_lines.length)
    else
      some "Content differs"

/-- `assertions.rs` `check_snapshot` over the fault-free store: the
snapshot file is `snapshot_key ++ ".snap"` inside the snapshot
directory.  Returns the assertion outcome and the directory afterwards;
`none` models a panic while computing the diff. -/
def check_snapshot (output snapshot_key : String) (store : SnapshotStore)
    (update : Bool) : Option (AssertionResult × SnapshotStore) :=
  let snap_file := snapshot_key ++ ".snap"
  if update then
    some (⟨true, "snapshot", "updated"⟩, fsWrite snap_file output store)
  else
    match fsRead snap_file store with
    | none =>
      some (⟨true, "snapshot", "created (first run)"⟩, fsWrite snap_file output store)
    | some existing =>
      let normalized_existing := trimStr existing
      let normalized_output := trimStr output
      if normalized_output = normalized_existing then
        some (⟨true, "snapshot", "matches saved snapshot"⟩, store)
      else
        match diff_summary normalized_existing normalized_output with
        | some diff =>
          some (⟨false, "snapshot",
            "differs from snapshot. " ++ diff
              ++ ". Run with --update-snapshots to accept."⟩, store)
        | none => none

/-! ## Assertion evaluator (`src/assertions.rs` `check_assertion`) -/

/-- `assertions.rs` `check_assertion`: evaluate one parsed assertion
against the output text and measured latency; `Snapshot` reads/writes
the store, every other variant leaves it unchanged.  `none` models a
panic (only the `Snapshot` diff can raise one). -/
def check_assertion (or : Oracles) (kind : AssertionKind) (output : String)
    (latency_ms : Nat) (snapshot_key : String) (store : SnapshotStore)
    (update_snapshots : Bool) : Option (AssertionResult × SnapshotStore) :=
  match kind with
  | .Contains expected =>
    let passed := hasSubstr (toLowercase output) (toLowercase expected)
    some (⟨passed, "contains \"" ++ expected ++ "\"",
      if passed then "found in output" else "NOT found in output"⟩, store)
  | .NotContains unexpected =>
    let passed := !hasSubstr (toLowercase output) (toLowercase unexpected)
    some (⟨passed, "not-contains \"" ++ unexpected ++ "\"",
      if passed then "correctly absent from output"
      else "unexpectedly found in output"⟩, store)
  | .LatencyMax max_ms =>
    some (⟨decide (latency_ms ≤ max_ms), "latency_max " ++ toString max_ms ++ "ms",
      "actual: " ++ toString latency_ms ++ "ms"⟩, store)
  | .Snapshot => check_snapshot output snapshot_key store update_snapshots
  | .Regex pattern =>
    let passed := or.regexMatch pattern output
    some (⟨passed, "regex /" ++ pattern ++ "/",
      if passed then "pattern matched" else "pattern NOT matched"⟩, store)
  | .JsonValid =>
    let passed := or.jsonOk (trimStr output)
    some (⟨passed, "json_valid",
      if passed then "output is valid JSON" else "output is NOT valid JSON"⟩, store)
  | .MinLength n =>
    let len := strBytes (trimStr output)
    some (⟨decide (n ≤ len), "min_length " ++ toString n,
      "actual: " ++ toString len ++ " chars"⟩, store)
  | .MaxLength n =>
    let len := strBytes (trimStr output)
    some (⟨decide (len ≤ n), "max_length " ++ toString n,
      "actual: " ++ toString len ++ " chars"⟩, store)

/-! ## Retry policy (`src/runner.rs` `complete_with_retry`) -/

/-- One completion attempt as the scheduler observes it: the provider
answers, the provider fails, or the `tokio::time::timeout` wrapper fires
first. -/
inductive Attempt where
  | ok (result : CompletionResult)
  | err (msg : String)
  | timedOut
deriving Repr

/-- The external completion capability (`Arc<dyn LlmProvider>`),
determinised: the outcome of attempt number `n` (0-based) of
`provider.complete(prompt, model, temperature)`. -/
def LlmProvider : Type := String → String → ℚ → Nat → Attempt

/-- `runner.rs`: max retry attempts for transient API errors. -/
def MAX_RETRIES : Nat := 3

/-- `runner.rs`: base delay for exponential backoff. -/
def BASE_RETRY_DELAY_MS : Nat := 500

/-- The error text the timeout wrapper produces. -/
def timeoutMessage (timeout_ms : Nat) : String :=
  "request timed out after " ++ toString timeout_ms ++ "ms"

/-- The `match attempt { Ok(inner) => inner, Err(_) => Err(timeout msg) }`
step of `complete_with_retry`. -/
def attemptOutcome (a : Attempt) (timeout_ms : Nat) : Except String CompletionResult :=
  match a with
  | .ok r => .ok r
  | .err m => .error m
  | .timedOut => .error (timeoutMessage timeout_ms)

/-- `runner.rs`: the transient-error test of `complete_with_retry`,
verbatim — substring checks on the error's display text. -/
def is_transient (err_msg : String) : Bool :=
  hasSubstr err_msg "429" || hasSubstr err_msg "500"
    || hasSubstr err_msg "502" || hasSubstr err_msg "503"
    || hasSubstr err_msg "timeout" || hasSubstr err_msg "timed out"
    || hasSubstr err_msg "connection"

/-- The `loop` of `complete_with_retry`, with the source's
`retries < MAX_RETRIES` guard carried as the structurally decreasing
budget `remaining = MAX_RETRIES - retries` (so `remaining > 0` iff
`retries < MAX_RETRIES`).  Returns the terminal outcome, the retries
performed, and — as instrumentation for the backoff contract — the list
of successive `time::sleep` delays, `BASE_RETRY_DELAY_MS * 2 ^ retries`
each (the source increments `retries` first and sleeps
`BASE_RETRY_DELAY_MS * 2_u64.pow(retries - 1)`, the same value). -/
def retryLoop (provider : LlmProvider) (prompt model : String) (temperature : ℚ)
    (timeout_ms : Nat) (remaining retries : Nat) :
    Except String CompletionResult × Nat × List Nat :=
  match attemptOutcome (provider prompt model temperature retries) timeout_ms with
  | .ok output => (.ok output, retries, [])
  | .error e =>
    if is_transient e then
      match remaining with
      | 0 => (.error e, retries, [])
      | rem + 1 =>
        let delay := BASE_RETRY_DELAY_MS * 2 ^ retries
        let rest := retryLoop provider prompt model temperature timeout_ms rem (retries + 1)
        (rest.1, rest.2.1, delay :: rest.2.2)
    else (.error e, retries, [])

/-- `runner.rs` `complete_with_retry`: retry + exponential backoff +
timeout around the completion capability. -/
def complete_with_retry (provider : LlmProvider) (prompt model : String)
    (temperature : ℚ) (timeout_ms : Nat) :
    Except String CompletionResult × Nat × List Nat :=
  retryLoop provider prompt model temperature timeout_ms MAX_RETRIES 0

/-! ## Scheduler (`src/runner.rs` `run_all_tests`) -/

/-- Per-spawned-task environment: the latency the task measures and
whether its `JoinHandle` resolves to a join error (`some` carries the
`JoinError`'s display text — an internal scheduling fault such as a
panicked or cancelled task). -/
structure CaseEnv where
  latency_ms : Nat
  join_error : Option String

/-- Everything one iteration of the spawn loop captures for a case. -/
structure SpawnSpec where
  test_id : String
  prompt : String
  model : String
  ci : Nat
  tc : TestCase
deriving DecidableEq, Repr

/-- The `--filter` test-ID predicate of `run_all_tests`. -/
def filterPred (filter : Option String) (t : TestDef) : Bool :=
  match filter with
  | some pattern => hasSubstr t.id pattern
  | none => true

/-- The ordered list of units of work `run_all_tests` spawns: tests kept
by the filter, then every case of each, in order, with the resolved
model name and the positional case index. -/
def spawnList (config : Config) (filter : Option String) : List SpawnSpec :=
  (config.tests.filter (filterPred filter)).flatMap fun t =>
    (List.enum t.cases).map fun p =>
      ⟨t.id, t.prompt, t.model.getD config.defaults.model, p.1, p.2⟩

/-- Sequential evaluation of the parsed assertions against one output
(the source's `.map` over `check_assertion`, with the snapshot
directory threaded through); `none` propagates a panic. -/
def evalAssertions (or : Oracles) (kinds : List AssertionKind) (output : String)
    (latency_ms : Nat) (snapshot_key : String) (update : Bool)
    (store : SnapshotStore) : Option (List AssertionDetail × SnapshotStore) :=
  match kinds with
  | [] => some ([], store)
  | k :: rest =>
    match check_assertion or k output latency_ms snapshot_key store update with
    | none => none
    | some (r, store1) =>
      match evalAssertions or rest output latency_ms snapshot_key update store1 with
      | none => none
      | some (rs, store2) => some (AssertionDetail.ofResult r :: rs, store2)

/-- The body of one spawned task of `run_all_tests`: render the prompt,
parse the assertions (parse failures silently dropped by
`filter_map(.. .ok())`), run `complete_with_retry`, then either score
the assertions (success) or build the completion-failure result.
`none` models the task panicking (a snapshot diff panic). -/
def runCase (or : Oracles) (provider : LlmProvider) (temperature : ℚ)
    (update_snapshots : Bool) (timeout_ms : Nat) (sp : SpawnSpec)
    (latency_ms : Nat) (store : SnapshotStore) : Option (CaseResult × SnapshotStore) :=
  let snapshot_key := sp.test_id ++ "_case" ++ toString sp.ci
  let rendered_prompt := render_prompt sp.prompt sp.tc.input
  let input_label :=
    String.intercalate ", " (sp.tc.input.map fun kv => kv.1 ++ "=" ++ kv.2)
  let parsed_assertions := sp.tc.assertions.filterMap fun a =>
    (AssertionKind.from_raw or.regexOk a.kind a.value).toOption
  let cr := complete_with_retry provider rendered_prompt sp.model temperature timeout_ms
  let retries := cr.2.1
  match cr.1 with
  | .ok completion =>
    let cost := calculate_cost sp.model completion.usage
    match evalAssertions or parsed_assertions completion.text latency_ms
        snapshot_key update_snapshots store with
    | none => none
    | some (assertion_results, store1) =>
      some ({ test_id := sp.test_id, input_label,
              passed := assertion_results.all (fun a => a.passed),
              latency_ms, assertions := assertion_results, error := none, retries,
              tokens := completion.usage, cost_usd := cost, model := sp.model,
              output := some completion.text }, store1)
  | .error e =>
    some ({ test_id := sp.test_id, input_label, passed := false, latency_ms,
            assertions := [], error := some e, retries,
            tokens := TokenUsage.zero, cost_usd := 0, model := sp.model,
            output := none }, store)

/-- What `handle.await` yields for one spawned case: the injected join
fault when present, otherwise the task's result — a task that panics
(`runCase = none`) also surfaces as a join error, as Tokio reports
panicked tasks through `JoinError`. -/
def taskOutcome (or : Oracles) (provider : LlmProvider) (temperature : ℚ)
    (update_snapshots : Bool) (timeout_ms : Nat) (sp : SpawnSpec)
    (env : CaseEnv) (store : SnapshotStore) : Except String CaseResult :=
  match env.join_error with
  | some m => .error m
  | none =>
    match runCase or provider temperature update_snapshots timeout_ms sp
        env.latency_ms store with
    | some (r, _) => .ok r
    | none => .error "task panicked"

/-- `runner.rs`: the placeholder result built when `handle.await` fails. -/
def joinErrorResult (e : String) : CaseResult :=
  { test_id := "unknown", input_label := "unknown", passed := false,
    latency_ms := 0, assertions := [], error := some ("Task join error: " ++ e),
    retries := 0, tokens := TokenUsage.zero, cost_usd := 0, model := "unknown",
    output := none }

/-- The collection loop of `run_all_tests`: one entry per handle, in
spawn order, join failures degraded to placeholders. -/
def collectOne (o : Except String CaseResult) : CaseResult :=
  match o with
  | .ok r => r
  | .error e => joinErrorResult e

/-- `runner.rs` `run_all_tests`: spawn one task per case (bounded by the
concurrency semaphore, which affects scheduling only, not results),
await every handle in spawn order, and return the collected results.
`envs i` is the environment of the `i`-th spawned task; each task starts
from the initial snapshot directory (case keys are distinct, so
concurrent tasks never contend for a file). -/
def run_all_tests (or : Oracles) (provider : LlmProvider) (config : Config)
    (update_snapshots : Bool) (timeout_ms : Nat) (filter : Option String)
    (envs : Nat → CaseEnv) (store : SnapshotStore) : List CaseResult :=
  ((spawnList config filter).enum.map fun p =>
    taskOutcome or provider config.defaults.temperature update_snapshots
      timeout_ms p.2 (envs p.1) store).map collectOne

/-! ## Result aggregator (`src/report.rs` `generate_report`, lines 9–23) -/

/-- The summary statistics `generate_report` computes before rendering. -/
structure ReportStats where
  total : Nat
  passed : Nat
  failed : Nat
  pass_pct : Nat
  total_cost : ℚ
  total_tokens : Nat
  avg_latency : Nat
deriving DecidableEq, Repr

/-- The statistics block of `report.rs` `generate_report` (the HTML
rendering around it is display only).  `u32` / `u64` sums wrap, hence
the `% 2 ^ 32` / `% 2 ^ 64`; `pass_pct` truncates the `f64` ratio. -/
def generate_report_stats (results : List CaseResult) : ReportStats :=
  let total := results.length
  let passed := (results.filter (fun r => r.passed)).length
  let failed := total - passed
  let pass_pct :=
    if total > 0 then Int.toNat ⌊(passed : ℚ) / (total : ℚ) * 100⌋ else 0
  let total_cost := (results.map (fun r => r.cost_usd)).sum
  let total_tokens := (results.map (fun r => r.tokens.total_tokens)).sum % 2 ^ 32
  let avg_latency :=
    if total > 0 then ((results.map (fun r => r.latency_ms)).sum % 2 ^ 64) / total
    else 0
  ⟨total, passed, failed, pass_pct, total_cost, total_tokens, avg_latency⟩

/-! ## Concrete instances used by witnesses and counterexamples -/

/-- A benign oracle bundle: every regex compiles, nothing matches, no
output is JSON (the claims exercised with it do not consult these). -/
def orcW : Oracles := ⟨fun _ => true, fun _ _ => false, fun _ => false⟩

/-- A provider that always fails with a permanent (non-transient) error. -/
def provPerm : LlmProvider := fun _ _ _ _ => .err "invalid api key"

/-- A provider that always fails with a rate-limit error. -/
def provRate : LlmProvider := fun _ _ _ _ => .err "HTTP 429 too many requests"

/-- A provider that always succeeds. -/
def provGood : LlmProvider := fun _ _ _ _ => .ok ⟨"Hello Alice", ⟨10, 20, 30⟩⟩

/-- A one-test, two-case configuration. -/
def cfgW : Config :=
  ⟨⟨"gpt-4o-mini", 0.7⟩,
   [⟨"greeting", "Say hello to \x7b\x7bname\x7d\x7d", none,
     [⟨[("name", "Alice")], [⟨"contains", .str "Alice"⟩]⟩,
      ⟨[("name", "Bob")], [⟨"contains", .str "Bob"⟩]⟩]⟩]⟩

/-- Environments for `cfgW`: the second spawned task joins with an
internal fault. -/
def envsW : Nat → CaseEnv := fun i =>
  if i = 0 then ⟨120, none⟩ else ⟨0, some "task 7 was cancelled"⟩

/-- A spawned case whose only raw assertion has an unknown type. -/
def spUnknown : SpawnSpec := ⟨"t1", "p", "gpt-4o", 0, ⟨[], [⟨"containz", .str "x"⟩]⟩⟩

/-- A spawned case with one well-formed assertion. -/
def spContains : SpawnSpec :=
  ⟨"greeting", "Say hello to \x7b\x7bname\x7d\x7d", "gpt-4o", 0,
   ⟨[("name", "Alice")], [⟨"contains", .str "Alice"⟩]⟩⟩

/-- A line of 39 ASCII bytes followed by a two-byte character spanning
byte indices 39–40, then two more bytes: 43 bytes long, and byte index
40 is NOT a character boundary. -/
def badLine : String := "aaaaaaaaaaaaaaaaaaaaaaaaaaaaaaaaaaaaaaaézz"

/-- A second such line (used by a different claim's counterexample). -/
def badLine2 : String := "bbbbbbbbbbbbbbbbbbbbbbbbbbbbbbbbbbbbbbbéyy"

/-- 25 two-byte characters: 50 bytes, 25 characters, every boundary even. -/
def eLine : String := "ééééééééééééééééééééééééé"

/-- One all-defaults passing (or failing) result for the aggregation
scenario. -/
def mkResW (b : Bool) : CaseResult :=
  { test_id := "t", input_label := "i", passed := b, latency_ms := 100,
    assertions := [], error := none, retries := 0, tokens := ⟨1, 2, 3⟩,
    cost_usd := 0, model := "m", output := none }

/-- The spec's aggregate scenario: 10 results of which 7 passed. -/
def tenResults : List CaseResult :=
  [mkResW true, mkResW true, mkResW true, mkResW true, mkResW true,
   mkResW true, mkResW true, mkResW false, mkResW false, mkResW false]

/-! ## Helper lemmas -/

/-- A prefix of a list is a prefix of any extension of it. -/
theorem listPrefix_append (p l r : List Char) (h : listPrefix p l = true) :
    listPrefix p (l ++ r) = true := by
  induction p generalizing l with
  | nil => simp [listPrefix]
  | cons c cs ih =>
    cases l with
    | nil => simp [listPrefix] at h
    | cons d ds =>
      simp only [listPrefix, Bool.and_eq_true] at h ⊢
      exact ⟨h.1, ih ds h.2⟩

/-- The empty pattern occurs in every list. -/
theorem substrAux_nil (l : List Char) : substrAux [] l = true := by
  cases l <;> simp [substrAux, listPrefix]

/-- A pattern occurring in a list occurs in any extension of it. -/
theorem substrAux_append (p l r : List Char) (h : substrAux p l = true) :
    substrAux p (l ++ r) = true := by
  induction l with
  | nil =>
    cases p with
    | nil => simpa using substrAux_nil r
    | cons c cs => simp [substrAux, listPrefix] at h
  | cons c cs ih =>
    simp only [substrAux, Bool.or_eq_true, List.cons_append] at h ⊢
    rcases h with h | h
    · exact Or.inl (listPrefix_append _ _ _ h)
    · exact Or.inr (ih h)

/-- Substring containment survives appending a suffix. -/
theorem hasSubstr_append (pre rest pat : String) (h : hasSubstr pre pat = true) :
    hasSubstr (pre ++ rest) pat = true := by
  unfold hasSubstr at h ⊢
  rw [String.data_append]
  exact substrAux_append _ _ _ h

/-- Full behaviour of the retry loop, for any starting retry count and
budget: the retry count only grows, by at most the budget; the recorded
backoff sleeps are one per retry performed, the `i`-th sleeping
`BASE_RETRY_DELAY_MS * 2 ^ (retries + i)` milliseconds. -/
theorem retryLoop_spec (provider : LlmProvider) (prompt model : String)
    (temperature : ℚ) (timeout_ms : Nat) (remaining : Nat) :
    ∀ retries,
      retries ≤ (retryLoop provider prompt model temperature timeout_ms remaining retries).2.1 ∧
      (retryLoop provider prompt model temperature timeout_ms remaining retries).2.1
        ≤ retries + remaining ∧
      (retryLoop provider prompt model temperature timeout_ms remaining retries).2.2.length
        = (retryLoop provider prompt model temperature timeout_ms remaining retries).2.1 - retries ∧
      (∀ i, (retryLoop provider prompt model temperature timeout_ms remaining retries).2.2[i]? =
        if retries + i < (retryLoop provider prompt model temperature timeout_ms remaining retries).2.1
        then some (BASE_RETRY_DELAY_MS * 2 ^ (retries + i)) else none) := by
  induction remaining with
  | zero =>
    intro retries
    unfold retryLoop
    cases attemptOutcome (provider prompt model temperature retries) timeout_ms with
    | ok out => simp
    | error e =>
      by_cases ht : is_transient e = true
      · simp [ht]
      · simp [Bool.not_eq_true] at ht
        simp [ht]
  | succ rem ih =>
    intro retries
    unfold retryLoop
    cases attemptOutcome (provider prompt model temperature retries) timeout_ms with
    | ok out => simp
    | error e =>
      by_cases ht : is_transient e = true
      · simp only [ht, if_true]
        obtain ⟨h1, h2, h3, h4⟩ := ih (retries + 1)
        refine ⟨by omega, by omega, by simp [h3]; omega, ?_⟩
        intro i
        cases i with
        | zero =>
          simp only [List.getElem?_cons_zero, Nat.add_zero]
          rw [if_pos (by omega)]
        | succ j =>
          simp only [List.getElem?_cons_succ]
          rw [h4 j]
          have : retries + 1 + j = retries + (j + 1) := by omega
          rw [this]
      · simp [Bool.not_eq_true] at ht
        simp [ht]

/-- Which attempts the retry loop makes: every attempt before the final
retry count failed with a transient error, the returned outcome is that
of the attempt numbered by the final retry count, and the loop stops
only on success, on a permanent error, or on an exhausted budget. -/
theorem retryLoop_attempts (provider : LlmProvider) (prompt model : String)
    (temperature : ℚ) (timeout_ms : Nat) (remaining : Nat) :
    ∀ retries res rfin ds,
      retryLoop provider prompt model temperature timeout_ms remaining retries
        = (res, rfin, ds) →
      (∀ j, retries ≤ j → j < rfin →
        ∃ e, attemptOutcome (provider prompt model temperature j) timeout_ms = .error e ∧
          is_transient e = true) ∧
      res = attemptOutcome (provider prompt model temperature rfin) timeout_ms ∧
      ((∃ c, res = .ok c) ∨
       (∃ e, res = .error e ∧
        (is_transient e = false ∨ rfin = retries + remaining))) := by
  induction remaining with
  | zero =>
    intro retries res rfin ds h
    rw [retryLoop.eq_def] at h
    split at h
    case h_1 c hA =>
      simp only [Prod.mk.injEq] at h
      obtain ⟨h1, h2, -⟩ := h
      subst h1 h2
      exact ⟨fun j hj1 hj2 => absurd hj2 (by omega), by rw [hA], Or.inl ⟨c, rfl⟩⟩
    case h_2 e hA =>
      by_cases ht : is_transient e = true
      · rw [if_pos ht] at h
        simp only [Prod.mk.injEq] at h
        obtain ⟨h1, h2, -⟩ := h
        subst h1 h2
        exact ⟨fun j hj1 hj2 => absurd hj2 (by omega), by rw [hA],
          Or.inr ⟨e, rfl, Or.inr rfl⟩⟩
      · rw [if_neg ht] at h
        simp only [Prod.mk.injEq] at h
        obtain ⟨h1, h2, -⟩ := h
        subst h1 h2
        simp only [Bool.not_eq_true] at ht
        exact ⟨fun j hj1 hj2 => absurd hj2 (by omega), by rw [hA],
          Or.inr ⟨e, rfl, Or.inl ht⟩⟩
  | succ rem ih =>
    intro retries res rfin ds h
    rw [retryLoop.eq_def] at h
    split at h
    case h_1 c hA =>
      simp only [Prod.mk.injEq] at h
      obtain ⟨h1, h2, -⟩ := h
      subst h1 h2
      exact ⟨fun j hj1 hj2 => absurd hj2 (by omega), by rw [hA], Or.inl ⟨c, rfl⟩⟩
    case h_2 e hA =>
      by_cases ht : is_transient e = true
      · rw [if_pos ht] at h
        simp only [Prod.mk.injEq] at h
        obtain ⟨h1, h2, h3⟩ := h
        subst h1 h2
        have hrec := ih (retries + 1)
          (retryLoop provider prompt model temperature timeout_ms rem (retries + 1)).1
          (retryLoop provider prompt model temperature timeout_ms rem (retries + 1)).2.1
          (retryLoop provider prompt model temperature timeout_ms rem (retries + 1)).2.2
          rfl
        obtain ⟨ih1, ih2, ih3⟩ := hrec
        have hge := (retryLoop_spec provider prompt model temperature timeout_ms rem
          (retries + 1)).1
        refine ⟨?_, ih2, ?_⟩
        · intro j hj1 hj2
          rcases Nat.eq_or_lt_of_le hj1 with hj | hj
          · subst hj
            exact ⟨e, hA, ht⟩
          · exact ih1 j (by omega) hj2
        · rcases ih3 with hok | ⟨e1, he1, hcond⟩
          · exact Or.inl hok
          · refine Or.inr ⟨e1, he1, ?_⟩
            rcases hcond with hc | hc
            · exact Or.inl hc
            · exact Or.inr (by omega)
      · rw [if_neg ht] at h
        simp only [Prod.mk.injEq] at h
        obtain ⟨h1, h2, -⟩ := h
        subst h1 h2
        simp only [Bool.not_eq_true] at ht
        exact ⟨fun j hj1 hj2 => absurd hj2 (by omega), by rw [hA],
          Or.inr ⟨e, rfl, Or.inl ht⟩⟩

/-! ## Claim theorems -/

/-- C2: for every provider behaviour, `complete_with_retry` retries
precisely the transiently failing attempts, at most
`MAX_RETRIES = 3` additional attempts (every attempt before the final
one failed transiently, and the loop only stops on success, on a
permanent error, or with the full 3 retries spent); it sleeps exactly
once per retry performed, the backoff before retry `k+1` (0-based `k`)
being `BASE_RETRY_DELAY_MS * 2 ^ k` ms, i.e. 500 ms, 1000 ms, 2000 ms;
and the retry count it returns alongside the terminal outcome equals
the number of retries actually performed, whether that outcome is
success or failure. -/
theorem complete_with_retry_backoff (provider : LlmProvider) (prompt model : String)
    (temperature : ℚ) (timeout_ms : Nat) :
    (complete_with_retry provider prompt model temperature timeout_ms).2.1 ≤ MAX_RETRIES ∧
    (complete_with_retry provider prompt model temperature timeout_ms).2.2.length
      = (complete_with_retry provider prompt model temperature timeout_ms).2.1 ∧
    (∀ k, (complete_with_retry provider prompt model temperature timeout_ms).2.2[k]? =
      if k < (complete_with_retry provider prompt model temperature timeout_ms).2.1
      then some (BASE_RETRY_DELAY_MS * 2 ^ k) else none) ∧
    BASE_RETRY_DELAY_MS * 2 ^ 0 = 500 ∧ BASE_RETRY_DELAY_MS * 2 ^ 1 = 1000 ∧
    BASE_RETRY_DELAY_MS * 2 ^ 2 = 2000 ∧
    (∀ j, j < (complete_with_retry provider prompt model temperature timeout_ms).2.1 →
      ∃ e, attemptOutcome (provider prompt model temperature j) timeout_ms = .error e ∧
        is_transient e = true) ∧
    ((complete_with_retry provider prompt model temperature timeout_ms).1
      = attemptOutcome (provider prompt model temperature
          (complete_with_retry provider prompt model temperature timeout_ms).2.1)
          timeout_ms) ∧
    ((∃ c, (complete_with_retry provider prompt model temperature timeout_ms).1 = .ok c) ∨
     (∃ e, (complete_with_retry provider prompt model temperature timeout_ms).1 = .error e ∧
      (is_transient e = false ∨
       (complete_with_retry provider prompt model temperature timeout_ms).2.1
         = MAX_RETRIES))) := by
  obtain ⟨h1, h2, h3, h4⟩ :=
    retryLoop_spec provider prompt model temperature timeout_ms MAX_RETRIES 0
  obtain ⟨a1, a2, a3⟩ :=
    retryLoop_attempts provider prompt model temperature timeout_ms MAX_RETRIES 0
      (retryLoop provider prompt model temperature timeout_ms MAX_RETRIES 0).1
      (retryLoop provider prompt model temperature timeout_ms MAX_RETRIES 0).2.1
      (retryLoop provider prompt model temperature timeout_ms MAX_RETRIES 0).2.2
      rfl
  refine ⟨by simpa [complete_with_retry] using h2, ?_, ?_,
    by decide, by decide, by decide, ?_, a2, by simpa using a3⟩
  · simpa [complete_with_retry] using h3
  · intro k
    simpa [complete_with_retry] using h4 k
  · intro j hj
    exact a1 j (Nat.zero_le j) hj

/-- C3: an attempt error is classified transient exactly when its text
indicates rate-limiting (429), server-side failure (500/502/503), a
timeout — including the message the per-attempt timeout wrapper
produces — or a connection-level failure; and a permanently-failing
first attempt terminates `complete_with_retry` immediately with 0
retries and no backoff sleeps. -/
theorem is_transient_classification :
    (∀ m : String, is_transient m = true ↔
      (hasSubstr m "429" = true ∨ hasSubstr m "500" = true ∨ hasSubstr m "502" = true ∨
       hasSubstr m "503" = true ∨ hasSubstr m "timeout" = true ∨
       hasSubstr m "timed out" = true ∨ hasSubstr m "connection" = true)) ∧
    (∀ timeout_ms : Nat, is_transient (timeoutMessage timeout_ms) = true) ∧
    (∀ (provider : LlmProvider) (prompt model : String) (temperature : ℚ)
        (timeout_ms : Nat) (e : String),
      attemptOutcome (provider prompt model temperature 0) timeout_ms = .error e →
      is_transient e = false →
      complete_with_retry provider prompt model temperature timeout_ms
        = (.error e, 0, [])) := by
  refine ⟨?_, ?_, ?_⟩
  · intro m
    simp only [is_transient, Bool.or_eq_true]
    tauto
  · intro timeout_ms
    have hfix : hasSubstr "request timed out after " "timed out" = true := by decide
    have h1 : hasSubstr ("request timed out after " ++ toString timeout_ms) "timed out" = true :=
      hasSubstr_append _ _ _ hfix
    have h2 :
        hasSubstr ("request timed out after " ++ toString timeout_ms ++ "ms") "timed out" = true :=
      hasSubstr_append _ _ _ h1
    simp only [timeoutMessage, is_transient, h2, Bool.or_true, Bool.true_or]
  · intro provider prompt model temperature timeout_ms e hA ht
    unfold complete_with_retry MAX_RETRIES retryLoop
    rw [hA]
    simp [ht]

/-- C3 witness: a provider failing with the concrete permanent error
`"invalid api key"` yields that error with 0 retries and no backoff
sleeps. -/
theorem is_transient_classification_witness :
    complete_with_retry provPerm "p" "m" 0 30000 = (.error "invalid api key", 0, []) :=
  is_transient_classification.2.2 provPerm "p" "m" 0 30000 "invalid api key"
    (by decide) (by decide)


/-- C1: `run_all_tests` returns exactly one result per submitted case,
in submission order — index `i` of the returned list is exactly the
collected outcome of the `i`-th spawned case — and a case whose task
fails to join still yields a placeholder result whose error string is
the distinguishable `"Task join error: ..."`, so the result count
always equals the submitted-case count. -/
theorem run_all_tests_total (or : Oracles) (provider : LlmProvider) (config : Config)
    (update_snapshots : Bool) (timeout_ms : Nat) (filter : Option String)
    (envs : Nat → CaseEnv) (store : SnapshotStore) :
    (run_all_tests or provider config update_snapshots timeout_ms filter envs store).length
      = (spawnList config filter).length ∧
    (∀ i, (run_all_tests or provider config update_snapshots timeout_ms filter envs store)[i]?
      = ((spawnList config filter)[i]?).map fun sp =>
          collectOne (taskOutcome or provider config.defaults.temperature update_snapshots
            timeout_ms sp (envs i) store)) ∧
    (∀ i sp m, (spawnList config filter)[i]? = some sp →
      (envs i).join_error = some m →
      (run_all_tests or provider config update_snapshots timeout_ms filter envs store)[i]?
        = some (joinErrorResult m) ∧
      (joinErrorResult m).error = some ("Task join error: " ++ m)) := by
  have hidx : ∀ i,
      (run_all_tests or provider config update_snapshots timeout_ms filter envs store)[i]?
        = ((spawnList config filter)[i]?).map fun sp =>
            collectOne (taskOutcome or provider config.defaults.temperature update_snapshots
              timeout_ms sp (envs i) store) := by
    intro i
    unfold run_all_tests
    rw [List.getElem?_map, List.getElem?_map, List.getElem?_enum]
    rcases hs : (spawnList config filter)[i]? with _ | sp <;> simp
  refine ⟨?_, hidx, ?_⟩
  · unfold run_all_tests
    simp [List.length_map, List.enum_length]
  · intro i sp m hsp hm
    have h := hidx i
    rw [hsp] at h
    have ht : taskOutcome or provider config.defaults.temperature update_snapshots
        timeout_ms sp (envs i) store = .error m := by
      unfold taskOutcome
      rw [hm]
    rw [Option.map_some', ht] at h
    exact ⟨h, rfl⟩

/-- C1 witness: on a concrete two-case configuration whose second
spawned task joins with an internal fault, `run_all_tests` returns two
results and the second is the join-error placeholder. -/
theorem run_all_tests_total_witness :
    (run_all_tests orcW provGood cfgW false 30000 none envsW []).length = 2 ∧
    (run_all_tests orcW provGood cfgW false 30000 none envsW [])[1]?
      = some (joinErrorResult "task 7 was cancelled") ∧
    (joinErrorResult "task 7 was cancelled").error
      = some "Task join error: task 7 was cancelled" := by
  obtain ⟨h1, _, h3⟩ := run_all_tests_total orcW provGood cfgW false 30000 none envsW []
  have h := h3 1
    ⟨"greeting", "Say hello to \x7b\x7bname\x7d\x7d", "gpt-4o-mini", 1,
      ⟨[("name", "Bob")], [⟨"contains", .str "Bob"⟩]⟩⟩
    "task 7 was cancelled" (by decide) (by decide)
  refine ⟨?_, h.1, h.2⟩
  rw [h1]
  decide

/-- C7: a case whose completion attempt ultimately fails produces a
result with the error string set to that error, an empty assertion
list (no assertion is evaluated), and an overall pass flag of `false`,
whatever the case's assertion specs. -/
theorem runCase_completion_failure (or : Oracles) (provider : LlmProvider)
    (temperature : ℚ) (update_snapshots : Bool) (timeout_ms : Nat) (sp : SpawnSpec)
    (latency_ms : Nat) (store : SnapshotStore) (e : String)
    (h : (complete_with_retry provider (render_prompt sp.prompt sp.tc.input) sp.model
      temperature timeout_ms).1 = .error e) :
    ∃ r store1,
      runCase or provider temperature update_snapshots timeout_ms sp latency_ms store
        = some (r, store1) ∧
      r.error = some e ∧ r.assertions = [] ∧ r.passed = false := by
  refine ⟨{ test_id := sp.test_id,
            input_label :=
              String.intercalate ", " (sp.tc.input.map fun kv => kv.1 ++ "=" ++ kv.2),
            passed := false, latency_ms := latency_ms, assertions := [],
            error := some e,
            retries := (complete_with_retry provider (render_prompt sp.prompt sp.tc.input)
              sp.model temperature timeout_ms).2.1,
            tokens := TokenUsage.zero, cost_usd := 0, model := sp.model,
            output := none }, store, ?_, rfl, rfl, rfl⟩
  simp only [runCase]
  rw [h]

/-- C7 witness: a concrete case with one assertion spec, against a
provider that fails permanently, yields error set, no assertion
outcomes, and a failed result. -/
theorem runCase_completion_failure_witness :
    ∃ r store1,
      runCase orcW provPerm (7 / 10) false 30000 spContains 120 [] = some (r, store1) ∧
      r.error = some "invalid api key" ∧ r.assertions = [] ∧ r.passed = false :=
  runCase_completion_failure orcW provPerm (7 / 10) false 30000 spContains 120 []
    "invalid api key" (by decide)

/-- C9: raw assertions whose kind or value fails to parse are silently
discarded — when every raw assertion of a case fails `from_raw` and the
completion succeeds, the result carries no assertion outcomes, no
error, and is marked passed (the AND over the empty outcome list). -/
theorem runCase_unparseable_pass (or : Oracles) (provider : LlmProvider)
    (temperature : ℚ) (update_snapshots : Bool) (timeout_ms : Nat) (sp : SpawnSpec)
    (latency_ms : Nat) (store : SnapshotStore) (completion : CompletionResult)
    (hparse : ∀ a ∈ sp.tc.assertions,
      (AssertionKind.from_raw or.regexOk a.kind a.value).isOk = false)
    (hok : (complete_with_retry provider (render_prompt sp.prompt sp.tc.input) sp.model
      temperature timeout_ms).1 = .ok completion) :
    ∃ r store1,
      runCase or provider temperature update_snapshots timeout_ms sp latency_ms store
        = some (r, store1) ∧
      r.assertions = [] ∧ r.error = none ∧ r.passed = true := by
  have hnil : sp.tc.assertions.filterMap
      (fun a => (AssertionKind.from_raw or.regexOk a.kind a.value).toOption) = [] := by
    rw [List.filterMap_eq_nil_iff]
    intro a ha
    have := hparse a ha
    rcases hv : AssertionKind.from_raw or.regexOk a.kind a.value with v | v
    · rfl
    · rw [hv] at this
      simp [Except.isOk, Except.toBool] at this
  refine ⟨{ test_id := sp.test_id,
            input_label :=
              String.intercalate ", " (sp.tc.input.map fun kv => kv.1 ++ "=" ++ kv.2),
            passed := true, latency_ms := latency_ms, assertions := [],
            error := none,
            retries := (complete_with_retry provider (render_prompt sp.prompt sp.tc.input)
              sp.model temperature timeout_ms).2.1,
            tokens := completion.usage,
            cost_usd := calculate_cost sp.model completion.usage, model := sp.model,
            output := some completion.text }, store, ?_, rfl, rfl, rfl⟩
  simp only [runCase]
  rw [hok, hnil]
  rfl

/-- C9 witness: a concrete case whose only raw assertion has the
unknown type `"containz"` is marked passed with no outcomes once its
completion succeeds. -/
theorem runCase_unparseable_pass_witness :
    ∃ r store1,
      runCase orcW provGood (7 / 10) false 30000 spUnknown 120 [] = some (r, store1) ∧
      r.assertions = [] ∧ r.error = none ∧ r.passed = true :=
  runCase_unparseable_pass orcW provGood (7 / 10) false 30000 spUnknown 120 []
    ⟨"Hello Alice", ⟨10, 20, 30⟩⟩ (by decide) (by decide)

/-- C4 counterexample: in compare mode with a differing stored record,
`check_snapshot` does not always return a failed outcome: when the first
differing line has a multi-byte character spanning byte index 40, the
diff truncation panics (modelled `none`) instead. -/
theorem check_snapshot_compare_panic_cex :
    trimStr badLine ≠ trimStr "x" ∧
    fsRead "k.snap" [("k.snap", "x")] = some "x" ∧
    check_snapshot badLine "k" [("k.snap", "x")] false = none := by decide

/-- C4 (amended): the snapshot check is a three-way case split — update
mode always rewrites the record and passes with detail "updated";
otherwise a missing record is created and passes with detail
"created (first run)"; otherwise the stored record is read, both texts
are trimmed, and the check passes with detail "matches saved snapshot"
exactly when the trimmed texts are equal — but in the unequal case the
check only fails (passed = false, store untouched) when it returns at
all: the diff-summary truncation can panic instead (see the
counterexample). -/
theorem check_snapshot_cases (output key : String) (store : SnapshotStore) :
    (check_snapshot output key store true =
      some (⟨true, "snapshot", "updated"⟩, fsWrite (key ++ ".snap") output store)) ∧
    (fsRead (key ++ ".snap") store = none →
      check_snapshot output key store false =
        some (⟨true, "snapshot", "created (first run)"⟩,
          fsWrite (key ++ ".snap") output store)) ∧
    (∀ existing, fsRead (key ++ ".snap") store = some existing →
      (trimStr output = trimStr existing →
        check_snapshot output key store false =
          some (⟨true, "snapshot", "matches saved snapshot"⟩, store)) ∧
      (trimStr output ≠ trimStr existing →
        ∀ r store1, check_snapshot output key store false = some (r, store1) →
          r.passed = false ∧ store1 = store)) := by
  refine ⟨rfl, ?_, ?_⟩
  · intro hnone
    simp [check_snapshot, hnone]
  · intro existing hsome
    constructor
    · intro heq
      simp [check_snapshot, hsome, heq]
    · intro hne r store1 hres
      simp only [check_snapshot, Bool.false_eq_true, if_false, hsome, if_neg hne] at hres
      rcases hd : diff_summary (trimStr existing) (trimStr output) with _ | d <;>
        rw [hd] at hres
      · simp at hres
      · simp only [Option.some.injEq, Prod.mk.injEq] at hres
        obtain ⟨hr, hs⟩ := hres
        rw [← hr, ← hs]
        exact ⟨rfl, rfl⟩

/-- C4 witness: on a concrete store holding `"hi\n"` for the key, the
compare branch passes for the output `" hi "` (equal after trimming),
leaving the store untouched. -/
theorem check_snapshot_cases_witness :
    check_snapshot " hi " "k" [("k.snap", "hi\n")] false =
      some (⟨true, "snapshot", "matches saved snapshot"⟩, [("k.snap", "hi\n")]) :=
  ((check_snapshot_cases " hi " "k" [("k.snap", "hi\n")]).2.2 "hi\n" (by decide)).1 (by decide)

/-- C5 counterexample: `MinLength(2)` against the one-character output
`"é"` passes (its UTF-8 length is 2 bytes) although the trimmed
character count is 1 < 2 — so the pass condition is not the trimmed
character count. -/
theorem min_length_not_char_count_cex :
    ((check_assertion orcW (.MinLength 2) "é" 0 "k" [] false).map fun p => p.1.passed)
      = some true ∧
    (trimStr "é").data.length = 1 ∧ strBytes (trimStr "é") = 2 := by decide

/-- C5 (amended): `MinLength(n)` passes iff the trimmed output's UTF-8
BYTE count (Rust `str::len`) is ≥ n, and `MaxLength(n)` passes iff that
byte count is ≤ n; both report the measured byte count in the
diagnostic (labelled "chars" by the source). -/
theorem length_assertions_byte_count (or : Oracles) (output : String) (n latency : Nat)
    (key : String) (store : SnapshotStore) (upd : Bool) :
    (∃ r, check_assertion or (.MinLength n) output latency key store upd
        = some (r, store) ∧
      (r.passed = true ↔ n ≤ strBytes (trimStr output)) ∧
      r.detail = "actual: " ++ toString (strBytes (trimStr output)) ++ " chars") ∧
    (∃ r, check_assertion or (.MaxLength n) output latency key store upd
        = some (r, store) ∧
      (r.passed = true ↔ strBytes (trimStr output) ≤ n) ∧
      r.detail = "actual: " ++ toString (strBytes (trimStr output)) ++ " chars") := by
  constructor
  · refine ⟨_, rfl, ?_, rfl⟩
    simp
  · refine ⟨_, rfl, ?_, rfl⟩
    simp

/-- C6 counterexample: updating the snapshot for the output `" hi "`
persists the raw text `" hi "`, not its trimmed form — the stored file
is not "exactly the trimmed accepted output". -/
theorem snapshot_write_untrimmed_cex :
    check_snapshot " hi " "k" [] true =
      some (⟨true, "snapshot", "updated"⟩, [("k.snap", " hi ")]) ∧
    fsRead "k.snap" [("k.snap", " hi ")] = some " hi " ∧
    trimStr " hi " ≠ " hi " := by decide

/-- C6 (amended): after every snapshot-store write (update mode or
first-run creation), the persisted file for the case key contains
exactly the raw accepted output text as produced — with no metadata
envelope, but also untrimmed; trimming happens at comparison time, not
at write time. -/
theorem snapshot_write_raw_output (output key : String) (store : SnapshotStore) :
    (∀ r store1, check_snapshot output key store true = some (r, store1) →
      fsRead (key ++ ".snap") store1 = some output) ∧
    (fsRead (key ++ ".snap") store = none →
      ∀ r store1, check_snapshot output key store false = some (r, store1) →
        fsRead (key ++ ".snap") store1 = some output) := by
  constructor
  · intro r store1 h
    simp only [check_snapshot, if_true, Option.some.injEq, Prod.mk.injEq] at h
    rw [← h.2]
    simp [fsRead, fsWrite, List.lookup]
  · intro hnone r store1 h
    simp only [check_snapshot, Bool.false_eq_true, if_false, hnone,
      Option.some.injEq, Prod.mk.injEq] at h
    rw [← h.2]
    simp [fsRead, fsWrite, List.lookup]

/-- C6 witness: a concrete first-run creation stores exactly the raw
output. -/
theorem snapshot_write_raw_output_witness :
    fsRead "k.snap" [("k.snap", " out ")] = some " out " :=
  (snapshot_write_raw_output " out " "k" []).2 (by decide)
    ⟨true, "snapshot", "created (first run)"⟩ [("k.snap", " out ")] (by decide)

/-- C10: the snapshot-diff truncation slices the first 40 BYTES of a
line, not 40 characters (a 50-byte line of 25 two-byte characters is
cut to 20 characters plus the ellipsis), and on a failing snapshot
comparison whose first differing line has a multi-byte character
spanning byte index 40 the slice is off a character boundary and
evaluation panics (modelled `none`) instead of returning a failed
outcome. -/
theorem snapshot_diff_truncation_panics :
    strBytes badLine2 = 43 ∧ badLine2.data.length = 42 ∧
    bytePrefix badLine2.data 40 = none ∧
    truncate badLine2 40 = none ∧
    strBytes eLine = 50 ∧ eLine.data.length = 25 ∧
    ((truncate eLine 40).map fun s => s.data.length) = some 21 ∧
    diff_summary "y" badLine2 = none ∧
    check_snapshot badLine2 "k10" [("k10.snap", "y")] false = none := by decide

/-- C8: the aggregator reports total = list length, passed = number of
results whose pass flag is true, failed = total − passed, total cost
and (within `u32` range) total tokens as sums over the results, and
average latency as the (within-`u64`-range) latency sum
integer-divided by the total, 0 for an empty list; in particular for
the concrete ten-result list with 7 passing it reports total = 10,
passed = 7, failed = 3. -/
theorem generate_report_stats_spec :
    (∀ results : List CaseResult,
      (generate_report_stats results).total = results.length ∧
      (generate_report_stats results).passed = results.countP (fun r => r.passed) ∧
      (generate_report_stats results).failed
        = results.length - results.countP (fun r => r.passed) ∧
      (generate_report_stats results).total_cost = (results.map fun r => r.cost_usd).sum ∧
      ((results.map fun r => r.tokens.total_tokens).sum < 2 ^ 32 →
        (generate_report_stats results).total_tokens
          = (results.map fun r => r.tokens.total_tokens).sum) ∧
      ((results.map fun r => r.latency_ms).sum < 2 ^ 64 →
        (generate_report_stats results).avg_latency =
          if results.length = 0 then 0
          else (results.map fun r => r.latency_ms).sum / results.length)) ∧
    (generate_report_stats tenResults).total = 10 ∧
    (generate_report_stats tenResults).passed = 7 ∧
    (generate_report_stats tenResults).failed = 3 := by
  refine ⟨?_, by decide, by decide, by decide⟩
  intro results
  refine ⟨rfl, ?_, ?_, rfl, ?_, ?_⟩
  · simp [generate_report_stats, List.countP_eq_length_filter]
  · simp [generate_report_stats, List.countP_eq_length_filter]
  · intro h
    simp [generate_report_stats, Nat.mod_eq_of_lt h]
    omega
  · intro h
    simp only [generate_report_stats, Nat.mod_eq_of_lt h]
    by_cases h0 : results.length = 0
    · simp [h0]
    · simp [h0, Nat.pos_of_ne_zero h0]

/-- C8 witness: the ten-result scenario's token sum fits `u32`, and the
aggregator reports it as the plain sum, 30. -/
theorem generate_report_stats_spec_witness :
    (generate_report_stats tenResults).total_tokens = 30 := by
  have h := (generate_report_stats_spec.1 tenResults).2.2.2.2.1 (by decide)
  rw [h]
  decide

end PromptSentinel
